import Mathlib

/-!
# ColorChecker generator: a shallow embedding

A Lean 4 embedding of `colorchecker_generator.py`, the single source file of
the ColorChecker-App repository, together with theorems checking the
repository's specification against it.

Modelling conventions:
* The pandas dataframe read from the spreadsheet (`df`) is modelled as a total
  grid of integer-valued cells `RawTable := ℕ → ℕ → ℤ`.  The spreadsheet is an
  external input of the program (sheet `RGB_8_bit`, 8-bit channel values);
  the label cells in column 0 and row 1 are used by the program only as opaque
  dictionary keys, so their string contents are modelled by the same cell type.
* The nested dictionary `data[version][color_space]` is keyed by the labels
  read from fixed cells, in reading order; it is modelled as a family indexed
  by the version index (`Fin 3`) and the color-space index (`Fin 19`).
* Python floats chosen from the ratio dropdowns (0.1 … 1.0) are modelled as
  exact rationals; Python `int(q)` for the nonnegative quantities appearing
  here is `Int.floor`.
* `screen_width`/`screen_height` (queried from the monitor at startup) are
  parameters of the embedding.
-/

/-- A raw spreadsheet table as produced by the data loader:
`pd.read_excel(excel_file, sheet_name='RGB_8_bit', header=None)`,
modelled as a total grid of cells indexed by (row, column). -/
def RawTable : Type := ℕ → ℕ → ℤ

/-- `version_row_indices = [1, 30, 59]` (source line 36). -/
def version_row_indices : List ℕ := [1, 30, 59]

/-- `colorchecker_versions = [df.iloc[row, 0] for row in version_row_indices]`
(source line 37). -/
def colorchecker_versions (df : RawTable) : List ℤ :=
  version_row_indices.map (fun row => df row 0)

/-- `col_start_indices = [8 + i * 3 for i in range(19)]` (source line 40). -/
def col_start_indices : List ℕ := (List.range 19).map (fun i => 8 + i * 3)

/-- `color_spaces = [df.iloc[1, col] for col in col_start_indices]`
(source line 41). -/
def color_spaces (df : RawTable) : List ℤ :=
  col_start_indices.map (fun col => df 1 col)

/-- The version-specific start rows `[5, 34, 63]` zipped against
`colorchecker_versions` in the data-building loop (source line 45). -/
def start_row : Fin 3 → ℕ
  | 0 => 5
  | 1 => 34
  | 2 => 63

/-- One Python `data[version][color_space]` entry:
`df.iloc[start_row-1:start_row-1+24, col_base:col_base+3].to_numpy()`
with `col_base = 8 + cs_idx * 3` (source lines 44–50).
The dictionary is modelled as a family indexed by the version index and the
color-space index (its keys are the labels read in that order). -/
def data (df : RawTable) (version : Fin 3) (cs_idx : Fin 19) : List (ℤ × ℤ × ℤ) :=
  (List.range 24).map (fun r =>
    (df (start_row version - 1 + r) (8 + cs_idx.val * 3),
     df (start_row version - 1 + r) (8 + cs_idx.val * 3 + 1),
     df (start_row version - 1 + r) (8 + cs_idx.val * 3 + 2)))

/-- `n_rows = 4` (source line 53). -/
def n_rows : ℕ := 4

/-- `n_cols = 6` (source line 53). -/
def n_cols : ℕ := 6

/-- The list `x` built by the grid loop: `col = i % n_cols` for `i` in
`range(24)` (source lines 54–58). -/
def grid_x : List ℕ := (List.range 24).map (fun i => i % n_cols)

/-- The list `y` built by the grid loop: `row = n_rows - 1 - (i // n_cols)`
for `i` in `range(24)` (source lines 54–59). -/
def grid_y : List ℕ := (List.range 24).map (fun i => n_rows - 1 - i / n_cols)

/-- The module-level values computed once at startup and read (never written)
by the helper functions and by `create_figure`: the screen dimensions (source
lines 25–27), the data dictionary (lines 44–50) and the grid position lists
(lines 53–59). -/
structure LoadState where
  screen_width : ℕ
  screen_height : ℕ
  table : Fin 3 → Fin 19 → List (ℤ × ℤ × ℤ)
  x : List ℕ
  y : List ℕ

/-- The startup state: the globals as the module initialisation computes them
from the dataframe and the monitor dimensions. -/
def init_state (df : RawTable) (screen_width screen_height : ℕ) : LoadState :=
  { screen_width := screen_width
    screen_height := screen_height
    table := data df
    x := grid_x
    y := grid_y }

/-- `get_colors`: `[f'rgb({r},{g},{b})' for r, g, b in rgb_array]` over
`rgb_array = data[version][color_space]` (source lines 62–64). -/
def get_colors (st : LoadState) (version : Fin 3) (color_space : Fin 19) : List String :=
  (st.table version color_space).map (fun t =>
    s!"rgb({t.1},{t.2.1},{t.2.2})")

/-- `get_text_labels`: `[f'{int(r)} {int(g)} {int(b)}' for r, g, b in rgb_array]`
(source lines 66–68); `int` of an integer cell is the identity. -/
def get_text_labels (st : LoadState) (version : Fin 3) (color_space : Fin 19) : List String :=
  (st.table version color_space).map (fun t =>
    s!"{t.1} {t.2.1} {t.2.2}")

/-- The `marker=dict(...)` argument of the scatter trace (source lines 77–81). -/
structure Marker where
  size : ℚ
  symbol : String
  color : List String
deriving DecidableEq

/-- The `textfont=dict(color='white', size=15)` argument (source line 84). -/
structure TextFont where
  color : String
  size : ℕ
deriving DecidableEq

/-- The single `go.Scatter` trace added by `create_figure`
(source lines 73–86). -/
structure Scatter where
  x : List ℕ
  y : List ℕ
  mode : String
  marker : Marker
  text : Option (List String)
  textposition : String
  textfont : TextFont
  hoverinfo : String
deriving DecidableEq

/-- One axis of the layout: `dict(visible=..., range=..., scaleanchor=...,
scaleratio=...)` (source lines 93–94); the y axis passes no scale anchor. -/
structure Axis where
  visible : Bool
  range : ℚ × ℚ
  scaleanchor : Option String
  scaleratio : Option ℚ
deriving DecidableEq

/-- `margin=dict(l=0, r=0, t=0, b=0)` (source line 95). -/
structure Margin where
  l : ℕ
  r : ℕ
  t : ℕ
  b : ℕ
deriving DecidableEq

/-- The figure produced by `create_figure`: one scatter trace plus the layout
set by `fig.update_layout(...)` (source lines 71–97).  `width`/`height` hold
`int(screen_width * selected_ratio)`: Python `int` truncates toward zero,
which for the nonnegative products occurring here is the floor. -/
structure Figure where
  traces : List Scatter
  width : ℤ
  height : ℤ
  plot_bgcolor : String
  paper_bgcolor : String
  xaxis : Axis
  yaxis : Axis
  margin : Margin
  showlegend : Bool
deriving DecidableEq

/-- `create_figure(version, color_space, selected_ratio, show_labels,
selected_square_ratio)` (source lines 70–99), reading the startup globals
from `st`.  The version and color-space arguments are the dropdown values,
i.e. labels drawn from the lists read at startup, modelled by their indices. -/
def create_figure (st : LoadState) (version : Fin 3) (color_space : Fin 19)
    (selected_ratio : ℚ) (show_labels : Bool) (selected_square_ratio : ℚ) : Figure :=
  { traces := [{
      x := st.x
      y := st.y
      mode := if show_labels then "markers+text" else "markers"
      marker := {
        size := selected_square_ratio * 400
        symbol := "square"
        color := get_colors st version color_space }
      text := if show_labels then some (get_text_labels st version color_space) else none
      textposition := "middle center"
      textfont := { color := "white", size := 15 }
      hoverinfo := "none" }]
    width := ⌊(st.screen_width : ℚ) * selected_ratio⌋
    height := ⌊(st.screen_height : ℚ) * selected_ratio⌋
    plot_bgcolor := "black"
    paper_bgcolor := "black"
    xaxis := {
      visible := false
      range := (-(1/2), (n_cols : ℚ) - 1/2)
      scaleanchor := some "y"
      scaleratio := some 1 }
    yaxis := {
      visible := false
      range := (-(1/2), (n_rows : ℚ) - 1/2)
      scaleanchor := none
      scaleratio := none }
    margin := { l := 0, r := 0, t := 0, b := 0 }
    showlegend := false }

/-- `create_figure` as a state transformer: the Python function body contains
no assignment to any module-level name, so the explicit state passing returns
the startup state unchanged alongside the figure. -/
def call_create_figure (st : LoadState) (version : Fin 3) (color_space : Fin 19)
    (selected_ratio : ℚ) (show_labels : Bool) (selected_square_ratio : ℚ) :
    Figure × LoadState :=
  (create_figure st version color_space selected_ratio show_labels selected_square_ratio, st)

/-- The callback `update_figure(selected_version, selected_color_space,
selected_screen_ratio, selected_color_square_ratio, show_labels)` (source
lines 192–193).  Its binders are listed in the function's own order — the
fourth binder is named `selected_color_square_ratio` although the fourth
declared `Input` is the show-labels radio (hence its type here), and the
fifth is named `show_labels` although the fifth `Input` is the square-size
dropdown — and the body hands them to `create_figure` positionally. -/
def update_figure (st : LoadState) (selected_version : Fin 3) (selected_color_space : Fin 19)
    (selected_screen_ratio : ℚ) (selected_color_square_ratio : Bool) (show_labels : ℚ) :
    Figure :=
  create_figure st selected_version selected_color_space selected_screen_ratio
    selected_color_square_ratio show_labels

/-- The live widget values, one per declared `Input` of the callback
(source lines 186–190): version dropdown, color-space dropdown, screen-ratio
dropdown, show-labels radio, square-size dropdown. -/
structure ViewState where
  version : Fin 3
  color_space : Fin 19
  screen_ratio : ℚ
  show_labels : Bool
  square_ratio : ℚ

/-- The figure the Dash wiring displays for a given widget state: the
framework applies `update_figure` to the widget values positionally in the
declared `Input` order (source lines 184–191). -/
def rendered_figure (st : LoadState) (s : ViewState) : Figure :=
  update_figure st s.version s.color_space s.screen_ratio s.show_labels s.square_ratio

/-! ## The app layout (source lines 104–182): selector options and defaults -/

/-- The version dropdown's option values, `[{'label': v, 'value': v} for v in
colorchecker_versions]` (source line 109). -/
def version_dropdown_options (df : RawTable) : List ℤ :=
  colorchecker_versions df

/-- The version dropdown's initial value, `colorchecker_versions[0]`
(source line 110). -/
def version_dropdown_value (df : RawTable) : ℤ :=
  (colorchecker_versions df).headI

/-- The color-space dropdown's option values (source line 119). -/
def color_space_dropdown_options (df : RawTable) : List ℤ :=
  color_spaces df

/-- The color-space dropdown's initial value, `color_spaces[0]`
(source line 120). -/
def color_space_dropdown_value (df : RawTable) : ℤ :=
  (color_spaces df).headI

/-- The screen-ratio dropdown's option values (source lines 129–140). -/
def screen_ratio_dropdown_options : List ℚ :=
  [0.1, 0.2, 0.3, 0.4, 0.5, 0.6, 0.7, 0.8, 0.9, 1.0]

/-- The screen-ratio dropdown's initial value (source line 141). -/
def screen_ratio_dropdown_value : ℚ := 0.6

/-- The color-square-size dropdown's option values (source lines 150–161). -/
def color_square_size_dropdown_options : List ℚ :=
  [0.1, 0.2, 0.3, 0.4, 0.5, 0.6, 0.7, 0.8, 0.9, 1.0]

/-- The color-square-size dropdown's initial value (source line 162). -/
def color_square_size_dropdown_value : ℚ := 0.5

/-- The show-labels radio's option values (source lines 171–174). -/
def show_labels_radio_options : List Bool := [true, false]

/-- The show-labels radio's initial value (source line 175). -/
def show_labels_radio_value : Bool := true

/-! ## The data loader (source lines 30–33) -/

/-- `excel_file = "ColorChecker_RGB_and_spectra.xlsx"` (source line 30). -/
def excel_file : String := "ColorChecker_RGB_and_spectra.xlsx"

/-- The `FileNotFoundError` message,
`f"Excel file '{excel_file}' not found. Please place it in the project directory."`
(source line 32). -/
def missing_file_message (path : String) : String :=
  "Excel file '" ++ path ++ "' not found. Please place it in the project directory."

/-- The load sequence of source lines 31–33: raise `FileNotFoundError` when
`os.path.exists` fails, otherwise read the spreadsheet.  The filesystem is a
partial map from paths to file contents, and `read_excel` (the external
spreadsheet parser, applied only in the existing-file branch) is a parameter:
the error branch never consults it. -/
def load_data {Content : Type} (read_excel : Content → RawTable)
    (fs : String → Option Content) (path : String) : Except String RawTable :=
  match fs path with
  | none => Except.error (missing_file_message path)
  | some c => Except.ok (read_excel c)

/-- Erase the label-dependent trace fields of a figure: the `mode` string and
the `text` payload, the two places `create_figure` consults `show_labels`.
Two figures are equal after erasure exactly when they differ at most in the
presence of the per-marker text labels. -/
def erase_labels (f : Figure) : Figure :=
  { f with traces := f.traces.map (fun t => { t with mode := "markers", text := none }) }

/-! ## Theorems -/

/-- `toString` on a string is the string itself. -/
theorem toString_string (s : String) : toString s = s := rfl

/-- Reading a mapped range at an in-bounds index. -/
theorem getD_map_range {α : Type} (n : ℕ) (f : ℕ → α) (d : α) (r : ℕ) (h : r < n) :
    ((List.range n).map f).getD r d = f r := by
  rw [List.getD_eq_getElem?_getD, List.getElem?_map, List.getElem?_range h]
  rfl

/-- C1: for every swatch index `i ≤ 23` the grid loop assigns
`(col, row) = (i % 6, 3 - i / 6)`, the 24 resulting pairs are pairwise
distinct, and every pair has its column in `[0, 5]` and its row in `[0, 3]`. -/
theorem grid_layout_unique_in_bounds :
    grid_x.length = 24 ∧ grid_y.length = 24 ∧
    (∀ i : Fin 24,
      grid_x.getD i.val 0 = i.val % 6 ∧
      grid_y.getD i.val 0 = 3 - i.val / 6 ∧
      grid_x.getD i.val 0 ≤ 5 ∧
      grid_y.getD i.val 0 ≤ 3) ∧
    (grid_x.zip grid_y).Nodup := by decide

/-- C3: for every widget state, the figure the callback wiring displays is
`create_figure` applied with each widget value in its intended role — the
show-labels widget value as `create_figure`'s `show_labels` argument and the
square-ratio widget value as its `selected_square_ratio` argument — because
`update_figure`'s swapped binder names are handed to `create_figure`
positionally, cancelling the swap in its `Input` order. -/
theorem callback_swap_cancels (st : LoadState) (s : ViewState) :
    rendered_figure st s =
      create_figure st s.version s.color_space s.screen_ratio s.show_labels s.square_ratio :=
  rfl

/-- C9: the indexer reads exactly 3 version labels from rows 1, 30, 59 of
column 0, exactly 19 color-space labels from row 1 at column offsets
8, 11, …, 8 + 18·3 = 62, and the block for a (version, color-space) pair is
the 3-column slice at that color space's offset over the version-specific
24-row range (start rows 5, 34, 63, sliced from `start_row - 1`). -/
theorem table_indexer_layout (df : RawTable) :
    (colorchecker_versions df).length = 3 ∧
    colorchecker_versions df = [df 1 0, df 30 0, df 59 0] ∧
    (color_spaces df).length = 19 ∧
    col_start_indices =
      [8, 11, 14, 17, 20, 23, 26, 29, 32, 35, 38, 41, 44, 47, 50, 53, 56, 59, 62] ∧
    color_spaces df = col_start_indices.map (fun col => df 1 col) ∧
    (∀ k : Fin 19, col_start_indices.getD k.val 0 = 8 + k.val * 3) ∧
    (start_row 0 = 5 ∧ start_row 1 = 34 ∧ start_row 2 = 63) ∧
    (∀ (version : Fin 3) (cs : Fin 19),
      (data df version cs).length = 24 ∧
      ∀ r : Fin 24,
        (data df version cs).getD r.val (0, 0, 0) =
          (df (start_row version - 1 + r.val) (8 + cs.val * 3),
           df (start_row version - 1 + r.val) (8 + cs.val * 3 + 1),
           df (start_row version - 1 + r.val) (8 + cs.val * 3 + 2))) := by
  refine ⟨rfl, rfl, rfl, by decide, rfl, by decide, ⟨rfl, rfl, rfl⟩, ?_⟩
  intro version cs
  refine ⟨by simp [data], ?_⟩
  intro r
  simp only [data]
  exact getD_map_range 24 _ _ r.val r.isLt

/-- C10: the two ratio selectors each offer exactly the values
0.1, 0.2, …, 1.0 and nothing else, the label-visibility control offers
exactly `true` and `false`, and the defaults are 0.6 (display ratio),
0.5 (swatch ratio), `true` (show labels) and the first entry of the
respective label list for the version and color-space dropdowns. -/
theorem selector_options_defaults (df : RawTable) :
    screen_ratio_dropdown_options =
      [1/10, 2/10, 3/10, 4/10, 5/10, 6/10, 7/10, 8/10, 9/10, 1] ∧
    color_square_size_dropdown_options =
      [1/10, 2/10, 3/10, 4/10, 5/10, 6/10, 7/10, 8/10, 9/10, 1] ∧
    show_labels_radio_options = [true, false] ∧
    screen_ratio_dropdown_value = 6/10 ∧
    color_square_size_dropdown_value = 5/10 ∧
    show_labels_radio_value = true ∧
    (version_dropdown_options df).head? = some (version_dropdown_value df) ∧
    (color_space_dropdown_options df).head? = some (color_space_dropdown_value df) := by
  refine ⟨by norm_num [screen_ratio_dropdown_options],
    by norm_num [color_square_size_dropdown_options], rfl,
    by norm_num [screen_ratio_dropdown_value],
    by norm_num [color_square_size_dropdown_value], rfl, ?_, ?_⟩
  · simp [version_dropdown_options, version_dropdown_value, colorchecker_versions,
      version_row_indices]
  · simp [color_space_dropdown_options, color_space_dropdown_value, color_spaces,
      col_start_indices, List.range_succ]

/-- C2: for every version index and color-space index, the Color Table entry
is a sequence of exactly 24 triples; when every cell of the sliced data
region holds a value in `[0, 255]` (the 8-bit sheet the program reads), so
does every channel of every stored triple; and the interaction path never
mutates the startup state the table lives in. -/
theorem color_table_invariant (df : RawTable)
    (h : ∀ (version : Fin 3) (cs : Fin 19) (r : Fin 24) (c : Fin 3),
      0 ≤ df (start_row version - 1 + r.val) (8 + cs.val * 3 + c.val) ∧
      df (start_row version - 1 + r.val) (8 + cs.val * 3 + c.val) ≤ 255) :
    ∀ (version : Fin 3) (cs : Fin 19),
      (data df version cs).length = 24 ∧
      (∀ t ∈ data df version cs,
        (0 ≤ t.1 ∧ t.1 ≤ 255) ∧ (0 ≤ t.2.1 ∧ t.2.1 ≤ 255) ∧ (0 ≤ t.2.2 ∧ t.2.2 ≤ 255)) ∧
      (∀ (sw sh : ℕ) (ratio : ℚ) (lbl : Bool) (sq : ℚ),
        (call_create_figure (init_state df sw sh) version cs ratio lbl sq).2 =
          init_state df sw sh) := by
  intro version cs
  refine ⟨by simp [data], ?_, fun _ _ _ _ _ => rfl⟩
  intro t ht
  simp only [data, List.mem_map, List.mem_range] at ht
  obtain ⟨r, hr, rfl⟩ := ht
  exact ⟨by simpa using h version cs ⟨r, hr⟩ 0,
         by simpa using h version cs ⟨r, hr⟩ 1,
         by simpa using h version cs ⟨r, hr⟩ 2⟩

/-- Witness for C2 at the constant table with every cell 115. -/
theorem color_table_invariant_witness :
    (data (fun _ _ => (115 : ℤ)) 0 0).length = 24 :=
  (color_table_invariant (fun _ _ => (115 : ℤ)) (by decide) 0 0).1

/-- C4, counterexample: at screen width 1366 the produced canvas width is
`int(1366 * 0.6) = 819`, not `round(1366 * 0.6) = 820` as the claim states. -/
theorem default_scene_width_not_round :
    (create_figure (init_state (fun _ _ => (0 : ℤ)) 1366 768) 0 0 (0.6 : ℚ) true
        (0.5 : ℚ)).width ≠ round ((1366 : ℚ) * 0.6) ∧
    (create_figure (init_state (fun _ _ => (0 : ℤ)) 1366 768) 0 0 (0.6 : ℚ) true
        (0.5 : ℚ)).width = 819 ∧
    round ((1366 : ℚ) * 0.6) = 820 := by
  norm_num [create_figure, init_state, round_eq]

/-- C4, amended: with the first version, the first color space, display ratio
0.6, swatch ratio 0.5 and labels on, the scene has one trace of 24 markers,
marker index 0 sits at grid position (0, 3), each marker's text label is the
stored channel values space-separated, and the canvas width is the
truncation `int(screen_width * 0.6)` = `⌊screen_width * 0.6⌋`. -/
theorem default_scene_spec (df : RawTable) (sw sh : ℕ) :
    (create_figure (init_state df sw sh) 0 0 (0.6 : ℚ) true (0.5 : ℚ)).traces.length = 1 ∧
    (∀ tr ∈ (create_figure (init_state df sw sh) 0 0 (0.6 : ℚ) true (0.5 : ℚ)).traces,
      tr.x.length = 24 ∧ tr.y.length = 24 ∧ tr.marker.color.length = 24 ∧
      tr.x.getD 0 99 = 0 ∧ tr.y.getD 0 99 = 3 ∧
      tr.text = some ((data df 0 0).map
        (fun t => toString t.1 ++ " " ++ toString t.2.1 ++ " " ++ toString t.2.2))) ∧
    (create_figure (init_state df sw sh) 0 0 (0.6 : ℚ) true (0.5 : ℚ)).width =
      ⌊(sw : ℚ) * (0.6 : ℚ)⌋ := by
  refine ⟨rfl, ?_, rfl⟩
  intro tr htr
  simp only [create_figure, List.mem_singleton] at htr
  subst htr
  refine ⟨?_, ?_, ?_, ?_, ?_, ?_⟩
  · simp only [init_state]
    decide
  · simp only [init_state]
    decide
  · simp [get_colors, init_state, data]
  · simp only [init_state]
    decide
  · simp only [init_state]
    decide
  · simp only [if_true, get_text_labels, init_state, Option.some.injEq]
    refine List.map_congr_left (fun t _ => ?_)
    simp only [toString_string, String.empty_append, String.append_empty, String.append_assoc]

/-- C5: two widget states that differ only in the label-visibility flag
produce scenes that are equal once the label-dependent fields (`mode`,
`text`) are erased — so marker colors, positions, sizes and the canvas
dimensions are identical — and whose text payload is present exactly when
the flag is on. -/
theorem label_toggle_frame (st : LoadState) (v : Fin 3) (cs : Fin 19) (r sq : ℚ)
    (b₁ b₂ : Bool) :
    erase_labels (rendered_figure st ⟨v, cs, r, b₁, sq⟩) =
      erase_labels (rendered_figure st ⟨v, cs, r, b₂, sq⟩) ∧
    (rendered_figure st ⟨v, cs, r, b₁, sq⟩).width =
      (rendered_figure st ⟨v, cs, r, b₂, sq⟩).width ∧
    (rendered_figure st ⟨v, cs, r, b₁, sq⟩).height =
      (rendered_figure st ⟨v, cs, r, b₂, sq⟩).height ∧
    (rendered_figure st ⟨v, cs, r, b₁, sq⟩).traces.map (fun t => t.marker) =
      (rendered_figure st ⟨v, cs, r, b₂, sq⟩).traces.map (fun t => t.marker) ∧
    (rendered_figure st ⟨v, cs, r, b₁, sq⟩).traces.map Scatter.x =
      (rendered_figure st ⟨v, cs, r, b₂, sq⟩).traces.map Scatter.x ∧
    (rendered_figure st ⟨v, cs, r, b₁, sq⟩).traces.map Scatter.y =
      (rendered_figure st ⟨v, cs, r, b₂, sq⟩).traces.map Scatter.y ∧
    (∀ tr ∈ (rendered_figure st ⟨v, cs, r, b₁, sq⟩).traces, tr.text.isSome = b₁) ∧
    (∀ tr ∈ (rendered_figure st ⟨v, cs, r, b₂, sq⟩).traces, tr.text.isSome = b₂) := by
  cases b₁ <;> cases b₂ <;>
    simp [erase_labels, rendered_figure, update_figure, create_figure]

/-- C6, counterexample: at screen width 1366, the canvas width for display
ratio 0.6 is 819 ≠ 1366 × 0.6 = 819.6, and the widths for ratios 0.6 and 0.3
(819 and 409) are not in exact proportion 0.6 : 0.3. -/
theorem display_ratio_not_proportional :
    ((create_figure (init_state (fun _ _ => (0 : ℤ)) 1366 768) 0 0 (0.6 : ℚ) true
        (0.5 : ℚ)).width : ℚ) ≠ (1366 : ℚ) * 0.6 ∧
    ((create_figure (init_state (fun _ _ => (0 : ℤ)) 1366 768) 0 0 (0.6 : ℚ) true
        (0.5 : ℚ)).width : ℚ) * 0.3 ≠
      ((create_figure (init_state (fun _ _ => (0 : ℤ)) 1366 768) 0 0 (0.3 : ℚ) true
        (0.5 : ℚ)).width : ℚ) * 0.6 := by
  norm_num [create_figure, init_state]

/-- C6, amended: changing only the display ratio rescales the canvas to the
floor of the proportional size, `width = ⌊screen_width * ratio⌋` and
`height = ⌊screen_height * ratio⌋`, while marker colors, marker geometry,
positions and text labels (the version- and color-space-dependent content)
are unchanged. -/
theorem display_ratio_frame (st : LoadState) (v : Fin 3) (cs : Fin 19) (r₁ r₂ : ℚ)
    (b : Bool) (sq : ℚ) :
    (create_figure st v cs r₁ b sq).width = ⌊(st.screen_width : ℚ) * r₁⌋ ∧
    (create_figure st v cs r₁ b sq).height = ⌊(st.screen_height : ℚ) * r₁⌋ ∧
    (create_figure st v cs r₂ b sq).width = ⌊(st.screen_width : ℚ) * r₂⌋ ∧
    (create_figure st v cs r₂ b sq).height = ⌊(st.screen_height : ℚ) * r₂⌋ ∧
    (create_figure st v cs r₁ b sq).traces.map (fun t => t.marker.color) =
      (create_figure st v cs r₂ b sq).traces.map (fun t => t.marker.color) ∧
    (create_figure st v cs r₁ b sq).traces.map (fun t => t.marker) =
      (create_figure st v cs r₂ b sq).traces.map (fun t => t.marker) ∧
    (create_figure st v cs r₁ b sq).traces.map Scatter.text =
      (create_figure st v cs r₂ b sq).traces.map Scatter.text ∧
    (create_figure st v cs r₁ b sq).traces.map Scatter.x =
      (create_figure st v cs r₂ b sq).traces.map Scatter.x ∧
    (create_figure st v cs r₁ b sq).traces.map Scatter.y =
      (create_figure st v cs r₂ b sq).traces.map Scatter.y :=
  ⟨rfl, rfl, rfl, rfl, rfl, rfl, rfl, rfl, rfl⟩

/-- C7: when the path is absent from the filesystem the loader stops with the
missing-file error, whose message contains the path, without consulting the
spreadsheet reader (the result is the same for any two readers); when the
path exists, the loader returns the parsed table and no such error. -/
theorem missing_file_check {Content : Type} (f g : Content → RawTable)
    (fs : String → Option Content) (path : String) :
    (∃ s t, missing_file_message path = s ++ path ++ t) ∧
    (match fs path with
     | none => load_data f fs path = Except.error (missing_file_message path) ∧
               load_data f fs path = load_data g fs path
     | some c => load_data f fs path = Except.ok (f c)) := by
  refine ⟨⟨"Excel file '", "' not found. Please place it in the project directory.", rfl⟩, ?_⟩
  cases h : fs path <;> simp [load_data, h]

/-- C8: the figure builder is deterministic and effect-free — it returns the
startup state unchanged, and its figure depends only on the screen
dimensions, the Color Table, the grid position lists and its five selection
inputs: two calls over states agreeing on those observables yield identical
figures. -/
theorem figure_builder_pure (st st' : LoadState) (v : Fin 3) (cs : Fin 19)
    (r : ℚ) (b : Bool) (sq : ℚ)
    (h1 : st.screen_width = st'.screen_width)
    (h2 : st.screen_height = st'.screen_height)
    (h3 : st.table = st'.table)
    (h4 : st.x = st'.x)
    (h5 : st.y = st'.y) :
    call_create_figure st v cs r b sq = (create_figure st' v cs r b sq, st) := by
  cases st
  cases st'
  simp only at h1 h2 h3 h4 h5
  subst h1 h2 h3 h4 h5
  rfl

/-- Witness for C8 at a concrete startup state. -/
theorem figure_builder_pure_witness :
    call_create_figure (init_state (fun _ _ => (0 : ℤ)) 100 100) 0 0 (1/2) true (1/2) =
      (create_figure (init_state (fun _ _ => (0 : ℤ)) 100 100) 0 0 (1/2) true (1/2),
       init_state (fun _ _ => (0 : ℤ)) 100 100) :=
  figure_builder_pure _ _ 0 0 (1/2) true (1/2) rfl rfl rfl rfl rfl
